import Mathlib

/-!
# Verification of the Enabl agent-router (`src/lambda/agent-router/agent_router.py`)

This file gives a shallow embedding of the routing, dispatch, normalization and
persistence logic of the agent-router Lambda, and proves or refutes the frozen
claims about it.

Embedding conventions:
* Python strings are Lean `String`s; `k in m` (substring test) is `strContains`;
  `str.lower()` is `pyToLower`; `str.strip()` is `pyTrim`;
  `len(s.split())` is `wordCount`.
* JSON values are the inductive `JVal`.  Python `KeyError` / `TypeError`
  raised while probing a JSON value are modelled with `Except Unit`.
* External calls (DynamoDB, Bedrock, downstream Lambdas) are oracles passed as
  arguments: an `Option`/`Except` input stands for the call's outcome, where
  `none` / `.error ()` means the call raised.  Side effects (conversation-store
  writes and reads, backend invocations) are returned in an explicit `Eff` log.
* The conversation store of one session is a chronologically sorted `List Msg`;
  a DynamoDB query with `ScanIndexForward=False, Limit=n` followed by a
  chronological re-sort is `takeLast n`.
-/

namespace AgentRouter

/-- Last `n` elements of a list (DynamoDB "most recent `n`, re-sorted ascending"). -/
def takeLast (n : Nat) (l : List α) : List α := l.drop (l.length - n)

/-- Python `s.lower()` (ASCII case mapping, which covers all inputs here). -/
def pyToLower (s : String) : String := ⟨s.data.map Char.toLower⟩

/-- Python `s.strip()`: remove leading and trailing whitespace. -/
def pyTrim (s : String) : String :=
  ⟨((s.data.dropWhile Char.isWhitespace).reverse.dropWhile Char.isWhitespace).reverse⟩

/-- First `n` characters of `s` (Python `s[:n]`). -/
def pyTake (s : String) (n : Nat) : String := ⟨s.data.take n⟩

/-- Python `s.startswith(p)`. -/
def strStartsWith (s p : String) : Bool := p.data.isPrefixOf s.data

/-- Python `needle in hay` for strings: substring containment. -/
def strContains (hay needle : String) : Bool :=
  let h := hay.data
  (List.range (h.length + 1)).any (fun i => needle.data.isPrefixOf (h.drop i))

/-- Python `len(s.split())`: number of maximal non-empty whitespace-separated tokens. -/
def wordCount (s : String) : Nat :=
  (s.data.foldl (fun (acc : Nat × Bool) c =>
    if c.isWhitespace then (acc.1, false)
    else ((if acc.2 then acc.1 else acc.1 + 1), true)) (0, false)).1

/-- Python `"\n".join(parts)`. -/
def joinNl : List String → String
  | [] => ""
  | [x] => x
  | x :: y :: xs => x ++ "\n" ++ joinNl (y :: xs)

/-- Python `" ".join(parts)`. -/
def joinSpace : List String → String
  | [] => ""
  | [x] => x
  | x :: y :: xs => x ++ " " ++ joinSpace (y :: xs)

/-- JSON values (the result of `json.loads`). A `"body"` field produced by a
downstream Lambda is modelled as the already-parsed JSON of that body string. -/
inductive JVal where
  | str (s : String)
  | num (n : Int)
  | bool (b : Bool)
  | null
  | arr (xs : List JVal)
  | obj (fields : List (String × JVal))

/-- Python truthiness of a JSON value. -/
def pyTruthy : JVal → Bool
  | .str s => s ≠ ""
  | .num n => n ≠ 0
  | .bool b => b
  | .null => false
  | .arr xs => !xs.isEmpty
  | .obj fs => !fs.isEmpty

/-- Dictionary lookup `d.get(k)` on a field list (first match, like a Python dict). -/
def getKey (fs : List (String × JVal)) (k : String) : Option JVal :=
  (fs.find? (fun p => p.1 == k)).map (fun p => p.2)

/-- Python `key in v` for a JSON value: key containment for dicts, element
equality for lists, substring for strings, `TypeError` otherwise. -/
def pyIn (key : String) : JVal → Except Unit Bool
  | .obj fs => .ok (fs.any (fun p => p.1 == key))
  | .arr xs => .ok (xs.any (fun v => match v with | .str s => s == key | _ => false))
  | .str s => .ok (strContains s key)
  | _ => .error ()

/-- Python `v[key]` for a JSON value: dict lookup (`KeyError` when absent),
`TypeError` for every other shape indexed by a string. -/
def pyGetItem (v : JVal) (key : String) : Except Unit JVal :=
  match v with
  | .obj fs =>
    match getKey fs key with
    | some w => .ok w
    | none => .error ()
  | _ => .error ()

/-! ## Static configuration tables (`AGENT_RUNTIME_ARNS`, `AGENT_KEYWORDS`) -/

/-- `AGENT_RUNTIME_ARNS`: agent type → runtime identifier, in source order. -/
def AGENT_RUNTIME_ARNS : List (String × String) :=
  [("health-assistant", "775525057465.dkr.ecr.us-east-1.amazonaws.com/enabl-health-assistant-python:latest"),
   ("appointment-agent", "775525057465.dkr.ecr.us-east-1.amazonaws.com/enabl-appointment-agent-python:latest"),
   ("community-agent", "775525057465.dkr.ecr.us-east-1.amazonaws.com/enabl-community-agent-python:latest"),
   ("document-agent", "arn:aws:bedrock-agentcore:us-east-1:775525057465:runtime/enabl_document_agent-pending"),
   ("knowledge-agent", "enabl-knowledge-agent-lambda")]

/-- The known agent types (`AGENT_RUNTIME_ARNS` keys, in dict iteration order). -/
def knownAgents : List String := AGENT_RUNTIME_ARNS.map (fun p => p.1)

/-- `AGENT_KEYWORDS`, in dict iteration (insertion) order. -/
def AGENT_KEYWORDS : List (String × List String) :=
  [("health-assistant",
    ["symptom", "symptoms", "pain", "fever", "headache", "nausea", "fatigue",
     "health", "wellness", "medical", "diagnosis", "treatment", "medication",
     "doctor", "physician", "nurse", "hospital", "clinic", "emergency",
     "sick", "illness", "disease", "condition", "feel", "feeling"]),
   ("appointment-agent",
    ["appointment", "schedule", "calendar", "book", "booking", "reschedule",
     "cancel", "reminder", "notification", "availability", "available",
     "doctor visit", "checkup", "follow-up", "meeting", "consultation",
     "time", "date", "when", "tomorrow", "today", "next week"]),
   ("community-agent",
    ["research", "study", "studies", "article", "news", "community",
     "forum", "discussion", "share", "experience", "others", "people",
     "evidence", "scientific", "clinical", "trial", "publication",
     "latest", "new", "recent", "update", "trend", "insight"]),
   ("document-agent",
    ["document", "report", "file", "upload", "analyze", "analysis",
     "medical record", "lab result", "test result", "scan", "x-ray",
     "blood work", "biopsy", "pathology", "interpretation", "review",
     "pdf", "image", "attachment", "chart", "history"]),
   ("knowledge-agent",
    ["knowledge", "guideline", "policy", "regulation", "compliance", "audit",
     "regional", "country", "australia", "ndis", "practice standards", "quality indicators",
     "requirements", "checklist", "documents needed", "what do i need",
     "classify", "classification", "categorize", "categories", "organize", "group", "structure", "taxonomy"])]

/-- Count of an agent's keywords occurring as substrings of `s`
(`sum(1 for kw in keywords if kw in s)`). -/
def countKeywords (kws : List String) (s : String) : Nat :=
  kws.countP (fun kw => strContains s kw)

/-- Keyword set of one agent (empty for unknown agents, like `AGENT_KEYWORDS.get(a, [])`). -/
def keywordsOf (agent : String) : List String :=
  ((AGENT_KEYWORDS.find? (fun p => p.1 == agent)).map (fun p => p.2)).getD []

/-! ## Conversation store and history -/

/-- One stored conversation message (the fields `select_agent` and
`build_conversation_context` read).  `agent_type = none` models the DynamoDB
item lacking the `agent_type` attribute. -/
structure Msg where
  role : String
  content : String
  agent_type : Option String

/-- `get_conversation_history(session_id, user_id, max_messages)`: the most
recent `maxMessages` items of the session, in chronological order. -/
def get_conversation_history (store : List Msg) (maxMessages : Nat) : List Msg :=
  takeLast maxMessages store

/-! ## Keyword classification and agent selection (`select_agent`) -/

/-- Python `max(scores.keys(), key=lambda k: scores[k])` over an association
list: the first entry attaining the maximal value (later entries replace the
running best only on a strictly greater value). -/
def firstMax : List (String × Nat) → Option (String × Nat)
  | l => l.foldl (fun acc p =>
      match acc with
      | none => some p
      | some q => if p.2 > q.2 then some p else some q) none

/-- The keyword-classification tail of `select_agent` (lines 667-680): score
every agent's keyword set against the lowered+stripped message, pick the
highest score (ties: first agent in `AGENT_KEYWORDS` order), default to
`health-assistant` when the best score is zero. -/
def classifyKeywords (messageLower : String) : String :=
  let scores := AGENT_KEYWORDS.map (fun p => (p.1, countKeywords p.2 messageLower))
  match firstMax scores with
  | some best => if best.2 > 0 then best.1 else "health-assistant"
  | none => "health-assistant"

/-- `continuation_keywords` (line 656). -/
def continuationKeywords : List String :=
  ["yes", "no", "ok", "sure", "that works", "sounds good", "perfect", "great"]

/-- The most recent assistant message of the fetched history that carries an
`agent_type` attribute (lines 649-653). -/
def lastAgentOf (history : List Msg) : Option String :=
  (history.reverse.find? (fun m => m.role == "assistant" && m.agent_type.isSome)).bind
    (fun m => m.agent_type)

/-- `select_agent` without an (accepted) explicit hint: continuity resolution
over the last 4 stored messages, then keyword classification (lines 644-680). -/
def selectAgentHistory (message : String) (store : List Msg) : String :=
  let history := get_conversation_history store 4
  let lastAgent := lastAgentOf history
  let messageLower := pyTrim (pyToLower message)
  let isContinuation := continuationKeywords.any (fun kw => strContains messageLower kw)
  let isShortResponse := wordCount message ≤ 5
  match lastAgent with
  | some la =>
    if (isContinuation || isShortResponse) && knownAgents.contains la then la
    else classifyKeywords messageLower
  | none => classifyKeywords messageLower

/-- `select_agent(message, session_id, user_id, explicit_agent)` (lines
620-680).  A non-empty explicit hint naming a known agent wins, except the
`document-agent` hint is overridden to `knowledge-agent` when the message's
knowledge-keyword score strictly exceeds its document-keyword score; otherwise
continuity/classification decide. A truthy accepted hint performs no store
read; the history path reads the last 4 messages.  Returns the decision and
the store-read effects. -/
def select_agent (message : String) (store : List Msg) (explicit_agent : Option String) :
    String × List Nat :=
  match explicit_agent with
  | some ea =>
    if ea ≠ "" ∧ knownAgents.contains ea then
      if ea == "document-agent" then
        let ml := pyToLower message
        let knowledgeScore := countKeywords (keywordsOf "knowledge-agent") ml
        let documentScore := countKeywords (keywordsOf "document-agent") ml
        if knowledgeScore > documentScore then ("knowledge-agent", [])
        else (ea, [])
      else (ea, [])
    else (selectAgentHistory message store, [4])
  | none => (selectAgentHistory message store, [4])

/-! ## Mini pattern matcher for the document-QA regexes

`detect_document_qa_intent` uses `re.search` with patterns built only from
literals, `\s+`, `\b`, literal alternation and an optional literal.  We embed
exactly that fragment.  `\w` is `[A-Za-z0-9_]` (the inputs are ASCII), `\s` is
modelled by `Char.isWhitespace`. -/

/-- One token of a pattern. -/
inductive Tok where
  | lit (s : String)
  | ws1
  | wb
  | altLit (ss : List String)
  | optLit (s : String)

/-- Python `\w`. -/
def isWordChar (c : Char) : Bool := c.isAlphanum || c == '_'

/-- Match a literal at the head of `cs`; on success return the remainder and
the new preceding character (for `\b`). -/
def litMatch (s : String) (cs : List Char) (prev : Option Char) :
    List (List Char × Option Char) :=
  if s.toList.isPrefixOf cs then
    [(cs.drop s.toList.length, if s.toList.isEmpty then prev else s.toList.getLast?)]
  else []

/-- All ways one token can match at the head of `cs`. -/
def tokMatch : Tok → List Char → Option Char → List (List Char × Option Char)
  | .lit s, cs, prev => litMatch s cs prev
  | .ws1, cs, _ =>
    let n := (cs.takeWhile Char.isWhitespace).length
    (List.range n).map (fun i => (cs.drop (i + 1), some ' '))
  | .wb, cs, prev =>
    let pw := match prev with | some c => isWordChar c | none => false
    let nw := match cs with | c :: _ => isWordChar c | [] => false
    if pw ≠ nw then [(cs, prev)] else []
  | .altLit ss, cs, prev => ss.flatMap (fun s => litMatch s cs prev)
  | .optLit s, cs, prev => (cs, prev) :: litMatch s cs prev

/-- Match a token sequence starting exactly at `cs`. -/
def seqMatch : List Tok → List Char → Option Char → Bool
  | [], _, _ => true
  | t :: ts, cs, prev => (tokMatch t cs prev).any (fun pr => seqMatch ts pr.1 pr.2)

/-- `re.search(pattern, s)`: the sequence matches starting at some position. -/
def reSearch (toks : List Tok) (s : String) : Bool :=
  let cs := s.toList
  (List.range (cs.length + 1)).any (fun i =>
    seqMatch toks (cs.drop i) (if i == 0 then none else cs.get? (i - 1)))

/-- `detect_document_qa_intent(message)` (lines 105-124): recipient / issuer /
signatory / date, first match wins; empty message has no intent. -/
def detect_document_qa_intent (message : String) : Option String :=
  if message = "" then none
  else
    let m := pyToLower message
    if reSearch [.lit "who", .ws1, .lit "is", .ws1, .altLit ["this", "the"], .ws1,
                 .lit "document", .ws1, .lit "for", .wb] m
       || reSearch [.lit "for", .ws1, .lit "who", .optLit "m", .wb] m
       || reSearch [.lit "who", .ws1, .lit "is", .ws1, .lit "it", .ws1, .lit "for", .wb] m
    then some "recipient"
    else if reSearch [.lit "who", .ws1, .altLit ["issued", "created", "made", "authored"], .wb] m
       || reSearch [.lit "issuer"] m
       || reSearch [.lit "issuing", .ws1, .lit "party"] m
    then some "issuer"
    else if reSearch [.lit "who", .ws1, .altLit ["signed", "signature"], .wb] m
       || reSearch [.lit "signatory"] m
    then some "signatory"
    else if reSearch [.altLit ["when", "date"], .wb] m
       || reSearch [.lit "what", .ws1, .lit "date"] m
    then some "date"
    else none

/-! ## Document question rewriting and listing heuristic -/

/-- Guidance sentences appended per sub-intent (lines 134-152). -/
def qaGuidance (intent : String) : List String :=
  if intent = "recipient" then
    ["Identify the recipient/subject the document is about (the person/participant it is for). Do NOT answer with the organization or issuer name.",
     "Prefer names near fields like \x27Participant\x27, \x27Participant Name\x27, \x27Client\x27, \x27Consumer\x27, or in signing blocks labelled for the participant.",
     "Return a concise answer: the person\x27s full name only, and a very short evidence snippet (<= 100 chars)."]
  else if intent = "issuer" then
    ["Identify the organization or entity that issued/created the document.",
     "Return the organization name and a short evidence snippet."]
  else if intent = "signatory" then
    ["Identify the person who signed the document (signatory). Return the name and short evidence snippet."]
  else if intent = "date" then
    ["Identify the document date (issue or effective date). Return the date value and short evidence snippet."]
  else []

/-- `rewrite_document_question(original, intent)` (lines 127-158): keep the
original question and append a strict-instruction preamble when an intent was
detected. -/
def rewrite_document_question (original : String) (intent : Option String) : String :=
  match intent with
  | none => original
  | some i =>
    let preamble := "STRICT INSTRUCTIONS: " ++ joinSpace (qaGuidance i) ++
      "\nIf multiple candidates, choose the best match for the requested role."
    original ++ "\n\n" ++ preamble

/-- `is_document_listing_intent(message)` (lines 161-173). -/
def is_document_listing_intent (message : String) : Bool :=
  if message = "" then false
  else
    let m := pyToLower message
    let verbs := ["list", "show", "name", "what", "which", "display", "give", "see", "view", "all"]
    let nouns := ["doc", "docs", "document", "documents", "file", "files", "upload", "uploads", "history"]
    let hasVerbNoun := verbs.any (fun v => strContains m v) && nouns.any (fun n => strContains m n)
    let hasPossessive := strContains m "my " || strContains m " i uploaded" || strContains m "uploaded"
    if hasVerbNoun && hasPossessive then true
    else strContains m "list my documents" || strContains m "show my documents" ||
         strContains m "list my files"

/-- Does `t` contain a run of at least 4 consecutive uppercase `A`-`Z`
characters (`re.findall(r"[A-Z]{4,}", t)` non-empty)? -/
def hasUpperRun4 (t : String) : Bool :=
  let cs := t.toList
  (List.range cs.length).any (fun i =>
    ((cs.drop i).take 4).length == 4 && ((cs.drop i).take 4).all Char.isUpper)

/-- `looks_like_org(answer_text)` (lines 189-202): legal-entity suffix in the
lowered+stripped answer, or an all-caps token of length at least 4. -/
def looks_like_org (answer_text : String) : Bool :=
  if answer_text = "" then false
  else
    let t := pyTrim answer_text
    let tl := pyToLower t
    let orgKeywords := [" pty ", " pty. ", " ltd", " limited", " inc", " llc",
                        " company", " pty ltd", " pty. ltd", " proprietary"]
    if orgKeywords.any (fun k => strContains tl k) then true
    else hasUpperRun4 t

/-! ## Effects, fixed texts, envelopes -/

/-- Observable side effects of one request, in order of occurrence. -/
inductive Eff where
  | save (role : String) (content : JVal) (agent_type : Option String)
  | history_read (maxMessages : Nat)
  | fm_invoke
  | doc_invoke (message : String)
  | knowledge_invoke (message : String)

/-- The conversation-store writes of an effect log. -/
def savesOf (effs : List Eff) : List Eff :=
  effs.filter (fun e => match e with | .save _ _ _ => true | _ => false)

/-- How many foundation-model (`bedrock_runtime.invoke_model`) calls the log records. -/
def fmCount (effs : List Eff) : Nat :=
  effs.countP (fun e => match e with | .fm_invoke => true | _ => false)

/-- The document-agent Lambda invocations of an effect log, with the message sent. -/
def docCalls (effs : List Eff) : List String :=
  effs.filterMap (fun e => match e with | .doc_invoke s => some s | _ => none)

/-- Fixed text returned by both foundation-model wrappers on an unrecognized
payload shape (lines 849 and 921). -/
def clarificationText : String :=
  "I provided a response, but there was an issue formatting it. Please try again."

/-- Fixed apology returned by both foundation-model wrappers when the model
call or its parsing raises (lines 853 and 942). -/
def apologyText : String :=
  "I apologize, but I\x27m unable to process your request at the moment. Please try again later."

/-- Fallback text of the document-agent Lambda path (line 329). -/
def docFallbackText : String :=
  "I had trouble accessing the document service. Please try again shortly."

/-- Fallback text of the knowledge-agent Lambda path (line 411). -/
def knowledgeFallbackText : String :=
  "I had trouble accessing the knowledge service. Please try again shortly."

/-- Default document answer when the backend body has no truthy `response` (line 246). -/
def docDefaultText : String := "Here are your documents."

/-- Default knowledge answer when the backend body has no truthy `response` (line 379). -/
def knowledgeDefaultText : String := "Here is the regional guidance."

/-- Stronger person-only instruction of the recipient refinement (lines 250-253). -/
def strongPreamble : String :=
  "PERSON-ONLY CONSTRAINT: Return the participant/person name only (no organizations). " ++
  "If no person name is present, answer \x27Unknown\x27. Include a very short evidence snippet."

/-- The HTTP response envelope fields the claims observe: `agent` and
`source` are the final values of those keys in the body dict (on the
dedicated-backend success paths the trailing `**body_obj` spread can override
the router's fixed values, so they are arbitrary JSON values there).
`sessionId`, `timestamp` and CORS headers are not modelled. -/
structure Envelope where
  statusCode : Nat
  agent : Option JVal := none
  response : Option JVal := none
  source : Option JVal := none
  extra : List (String × JVal) := []
  error : Option String := none

/-! ## Response normalization (`invoke_foundation_model_direct`, lines 790-856) -/

/-- The `try`-block of the Nova response extraction in
`invoke_foundation_model_direct` (lines 838-849 plus the post-`try` fall-through
`return ""` at line 856): nested `output.message.content[0].text` first, then a
plain-string `content`, then flat `outputText`, else the fixed clarification
text; a body whose `output.message.content` is neither a non-empty list nor a
string falls out of the conditional chain and returns the empty string.
`.error ()` is an exception escaping to the enclosing handler. -/
def novaExtractDirect (rb : JVal) : Except Unit JVal := do
  let hasOutput ← pyIn "output" rb
  let outerCond ← if hasOutput then do
      let o ← pyGetItem rb "output"
      pyIn "message" o
    else pure false
  if outerCond then
    let o ← pyGetItem rb "output"
    let msg ← pyGetItem o "message"
    let content ← pyGetItem msg "content"
    match content with
    | .arr (x :: _) => pyGetItem x "text"
    | .str s => pure (.str s)
    | _ => pure (.str "")
  else
    let hasOutputText ← pyIn "outputText" rb
    if hasOutputText then pyGetItem rb "outputText"
    else pure (.str clarificationText)

/-- `invoke_foundation_model_direct(agent_type, prompt, session_id)`:
`novaBody = none` models the Bedrock call (or `json.loads`) raising; any
exception inside the `try` yields the fixed apology text.  No conversation
message is ever persisted on this path. -/
def invoke_foundation_model_direct (novaBody : Option JVal) : JVal :=
  match novaBody with
  | none => .str apologyText
  | some rb =>
    match novaExtractDirect rb with
    | .ok v => v
    | .error _ => .str apologyText

/-! ## Foundation model with context (`invoke_foundation_model`, lines 859-942) -/

/-- The Nova extraction of `invoke_foundation_model` (lines 921-932):
`ai_response` starts as the clarification text and is only overwritten by a
recognized shape, so every shape mismatch yields the clarification text (there
is no empty-string fall-through here). -/
def novaExtractFm (rb : JVal) : Except Unit JVal := do
  let hasOutput ← pyIn "output" rb
  let outerCond ← if hasOutput then do
      let o ← pyGetItem rb "output"
      pyIn "message" o
    else pure false
  if outerCond then
    let o ← pyGetItem rb "output"
    let msg ← pyGetItem o "message"
    let content ← pyGetItem msg "content"
    match content with
    | .arr (x :: _) => pyGetItem x "text"
    | .str s => pure (.str s)
    | _ => pure (.str clarificationText)
  else
    let hasOutputText ← pyIn "outputText" rb
    if hasOutputText then pyGetItem rb "outputText"
    else pure (.str clarificationText)

/-- `invoke_foundation_model(agent_type, message, session_id, user_id)`:
reads history twice (line 876 and inside `build_conversation_context`), makes
one model call, and persists the turn (user message, then assistant message
tagged with the agent) only when the call and its parsing succeed; on any
exception it returns the apology text without persisting. -/
def invoke_foundation_model (agent_type message : String) (novaBody : Option JVal) :
    JVal × List Eff :=
  let baseEffs : List Eff := [.history_read 10, .history_read 10, .fm_invoke]
  match novaBody with
  | none => (.str apologyText, baseEffs)
  | some rb =>
    match novaExtractFm rb with
    | .error _ => (.str apologyText, baseEffs)
    | .ok ai =>
      (ai, baseEffs ++ [.save "user" (.str message) none, .save "assistant" ai (some agent_type)])

/-! ## AgentCore and the dispatcher (`invoke_agentcore`, `invoke_agent`) -/

/-- `invoke_agentcore(agent_type, message, session_id)` (lines 708-787).
For an ECR runtime identifier the call is simulated by a direct
foundation-model invocation, which never raises; for any other identifier the
outcome of the real AgentCore runtime interaction is the oracle `acRuntime`
(`.ok` of the response text — empty text raises — or `.error ()` for any
exception, including the unavailable-client branch at line 783).
`.error ()` of the result models `invoke_agentcore` raising. -/
def invoke_agentcore (agent_type : String) (novaDirectBody : Option JVal)
    (acRuntime : Except Unit String) : Except Unit JVal :=
  match (AGENT_RUNTIME_ARNS.find? (fun p => p.1 == agent_type)).map (fun p => p.2) with
  | none => .error ()
  | some ident =>
    if strStartsWith ident "775525057465.dkr.ecr" then
      .ok (invoke_foundation_model_direct novaDirectBody)
    else
      match acRuntime with
      | .ok t => if t ≠ "" then .ok (.str t) else .error ()
      | .error _ => .error ()

/-- `invoke_agent(agent_type, message, session_id, user_id)` (lines 683-705):
with AgentCore available and a known agent, try `invoke_agentcore`; on an
exception fall back to `invoke_foundation_model` (exactly one fallback);
otherwise call `invoke_foundation_model` directly. -/
def invoke_agent (agentcoreAvailable : Bool) (agent_type message : String)
    (novaDirectBody novaFmBody : Option JVal) (acRuntime : Except Unit String) :
    JVal × List Eff :=
  if agentcoreAvailable && knownAgents.contains agent_type then
    match invoke_agentcore agent_type novaDirectBody acRuntime with
    | .ok t => (t, [])
    | .error _ => invoke_foundation_model agent_type message novaFmBody
  else invoke_foundation_model agent_type message novaFmBody

/-! ## Conversation context (`build_conversation_context`, lines 590-617) -/

/-- One transcript line: role label, colon, message body truncated to 200
characters with an ellipsis appended exactly when truncation occurred
(lines 611-613).  Any role other than `user` is labelled `Assistant`. -/
def transcriptLine (m : Msg) : String :=
  (if m.role == "user" then "User" else "Assistant") ++ ": " ++
  (if m.content.length > 200 then pyTake m.content 200 ++ "..." else m.content)

/-- `build_conversation_context(session_id, user_id, current_message)`:
fetch up to 10 most-recent messages; with no history return the current
message verbatim; otherwise render the last 6 of them as a labelled transcript
and append the current message. -/
def build_conversation_context (store : List Msg) (current_message : String) : String :=
  let history := get_conversation_history store 10
  if history.isEmpty then current_message
  else
    joinNl (["Previous conversation:"] ++
            (takeLast 6 history).map transcriptLine ++
            ["\nCurrent message:\nUser: " ++ current_message])

/-! ## Dedicated document / knowledge backends -/

/-- Unwrapping of a downstream Lambda result (lines 236-243 and 370-377): a
dict with a `body` field yields that (parsed) body, anything else is used
as-is.  (A `body` that fails to parse falls back to the whole result; in the
model the `body` field already holds the parsed value, so parsing succeeds.) -/
def bodyOf (result : JVal) : JVal :=
  match result with
  | .obj fs =>
    match getKey fs "body" with
    | some b => b
    | none => .obj fs
  | r => r

/-- `body_obj.get('response') or default`: the `response` field when truthy,
else the default. -/
def responseOrDefault (fs : List (String × JVal)) (dflt : String) : JVal :=
  match getKey fs "response" with
  | some v => if pyTruthy v then v else .str dflt
  | none => .str dflt

/-- The merge loop of the recipient refinement (lines 290-292): append each
field of the second body whose key is not already present. -/
def mergeBody (fs1 fs2 : List (String × JVal)) : List (String × JVal) :=
  fs2.foldl (fun acc p => if acc.any (fun q => q.1 == p.1) then acc else acc ++ [p]) fs1

/-- `looks_like_org(response_text)` applied to a JSON value: a falsy value is
not an organization (Python `if not answer_text: return False`), a truthy
non-string raises (`.strip()` on a non-string). -/
def looksLikeOrgJVal : JVal → Except Unit Bool
  | .str s => .ok (looks_like_org s)
  | v => if pyTruthy v then .error () else .ok false

/-- Success envelope of the document path (lines 302-318).  The body dict
lists `response`, `agent`, `sessionId`, `timestamp`, `source`,
`agentcore_available` and then spreads the backend body's non-`response`
fields; in a Python dict literal later keys win, so a backend `agent` or
`source` field **overrides** the router's fixed value.  `response` is
excluded from the spread and keeps the router's value. -/
def docEnvelope (resp : JVal) (fs : List (String × JVal)) : Envelope :=
  let passthrough := fs.filter (fun p => !(p.1 == "response"))
  { statusCode := 200,
    agent := some ((getKey passthrough "agent").getD (.str "document-agent")),
    response := some resp,
    source := some ((getKey passthrough "source").getD (.str "document-agent-lambda")),
    extra := passthrough }

/-- Exception envelope of the document path (lines 319-336): a fixed dict
with no spread. -/
def docFallbackEnvelope : Envelope :=
  { statusCode := 200, agent := some (.str "document-agent"),
    response := some (.str docFallbackText), source := some (.str "fallback") }

/-- The backend outcome's parsed body has no field named `k` (so the trailing
spread cannot override the router's `k` entry).  A raised call or a non-dict
body trivially lacks every key. -/
def bodyLacksKey (c : Except Unit JVal) (k : String) : Bool :=
  match c with
  | .error _ => true
  | .ok r =>
    match bodyOf r with
    | .obj fs => (getKey fs k).isNone
    | _ => true

/-- `invoke_document_agent_lambda(message, user_id, session_id)` (lines
205-336).  `call1`/`call2` are the outcomes of the first and (possible)
refinement Lambda invocation: `.ok` of the decoded result payload, `.error ()`
when `lambda_client.invoke` (or payload decoding outside the inner `try`)
raises.  Effects record each invocation with the message it carried, and the
persisted turn. -/
def invoke_document_agent_lambda (message : String) (call1 call2 : Except Unit JVal) :
    Envelope × List Eff :=
  let qaIntent := detect_document_qa_intent message
  let refined := rewrite_document_question message qaIntent
  match call1 with
  | .error _ => (docFallbackEnvelope, [.doc_invoke refined])
  | .ok result =>
    match bodyOf result with
    | .obj fs1 =>
      let responseText := responseOrDefault fs1 docDefaultText
      let orgCheck : Except Unit Bool :=
        if qaIntent == some "recipient" then looksLikeOrgJVal responseText
        else .ok false
      match orgCheck with
      | .error _ => (docFallbackEnvelope, [.doc_invoke refined])
      | .ok doRefine =>
        if doRefine then
          let refined2 := refined ++ "\n\n" ++ strongPreamble
          let (finalResp, finalFs) :=
            match call2 with
            | .error _ => (responseText, fs1)
            | .ok result2 =>
              match bodyOf result2 with
              | .obj fs2 =>
                let alt := responseOrDefault fs2 ""
                if pyTruthy alt then (alt, mergeBody fs1 fs2)
                else (responseText, fs1)
              | _ => (responseText, fs1)
          (docEnvelope finalResp finalFs,
           [.doc_invoke refined, .doc_invoke refined2,
            .save "user" (.str message) none,
            .save "assistant" finalResp (some "document-agent")])
        else
          (docEnvelope responseText fs1,
           [.doc_invoke refined,
            .save "user" (.str message) none,
            .save "assistant" responseText (some "document-agent")])
    | _ => (docFallbackEnvelope, [.doc_invoke refined])

/-- Success envelope of the knowledge path (lines 387-401): like the document
path, the trailing `**body_obj` spread follows the fixed keys and overrides
`agent`/`source` when the backend body carries them. -/
def knowledgeEnvelope (resp : JVal) (fs : List (String × JVal)) : Envelope :=
  let passthrough := fs.filter (fun p => !(p.1 == "response"))
  { statusCode := 200,
    agent := some ((getKey passthrough "agent").getD (.str "knowledge-agent")),
    response := some resp,
    source := some ((getKey passthrough "source").getD (.str "knowledge-agent-lambda")),
    extra := passthrough }

/-- Exception envelope of the knowledge path (lines 402-417): fixed dict, no
spread. -/
def knowledgeFallbackEnvelope : Envelope :=
  { statusCode := 200, agent := some (.str "knowledge-agent"),
    response := some (.str knowledgeFallbackText), source := some (.str "fallback") }

/-- `invoke_knowledge_agent_lambda(message, user_id, session_id)` (lines
339-417), modelled the same way as the document path (no refinement). -/
def invoke_knowledge_agent_lambda (message : String) (call : Except Unit JVal) :
    Envelope × List Eff :=
  match call with
  | .error _ => (knowledgeFallbackEnvelope, [.knowledge_invoke message])
  | .ok result =>
    match bodyOf result with
    | .obj fs =>
      let responseText := responseOrDefault fs knowledgeDefaultText
      (knowledgeEnvelope responseText fs,
       [.knowledge_invoke message,
        .save "user" (.str message) none,
        .save "assistant" responseText (some "knowledge-agent")])
    | _ => (knowledgeFallbackEnvelope, [.knowledge_invoke message])

/-! ## The Lambda handler (`lambda_handler`, lines 945-1025) -/

/-- 400 envelope for a missing (or falsy) `message` (lines 964-974). -/
def badRequestEnvelope : Envelope :=
  { statusCode := 400, error := some "Message is required" }

/-- All external-call oracles of one request. -/
structure Oracles where
  agentcoreAvailable : Bool
  acRuntime : Except Unit String
  novaDirectBody : Option JVal
  novaFmBody : Option JVal
  docCall1 : Except Unit JVal
  docCall2 : Except Unit JVal
  knowledgeCall : Except Unit JVal

/-- `lambda_handler(event, context)`: parse the body, reject a missing/empty
`message` with 400 before any downstream work, select the agent, then route to
the document backend (for a `document-agent` decision or a listing-intent
message), the knowledge backend, or the AgentCore/foundation-model hybrid,
whose envelope reports `source` from `AGENTCORE_AVAILABLE` alone. -/
def lambda_handler (message : Option String) (explicit_agent : Option String)
    (store : List Msg) (orc : Oracles) : Envelope × List Eff :=
  match message with
  | none => (badRequestEnvelope, [])
  | some m =>
    if m = "" then (badRequestEnvelope, [])
    else
      let (selected, reads) := select_agent m store explicit_agent
      let selEffs : List Eff := reads.map (fun n => .history_read n)
      if selected == "document-agent" || is_document_listing_intent m then
        let (env, effs) := invoke_document_agent_lambda m orc.docCall1 orc.docCall2
        (env, selEffs ++ effs)
      else if selected == "knowledge-agent" then
        let (env, effs) := invoke_knowledge_agent_lambda m orc.knowledgeCall
        (env, selEffs ++ effs)
      else
        let (resp, effs) := invoke_agent orc.agentcoreAvailable selected m
          orc.novaDirectBody orc.novaFmBody orc.acRuntime
        ({ statusCode := 200, agent := some (.str selected), response := some resp,
           source := some (.str (if orc.agentcoreAvailable then "bedrock-agentcore"
                                 else "amazon-nova-pro")) },
         selEffs ++ effs)

/-! ## Helper lemmas -/

theorem takeLast_takeLast (m n : Nat) (h : m ≤ n) (l : List α) :
    takeLast m (takeLast n l) = takeLast m l := by
  unfold takeLast
  rw [List.drop_drop, List.length_drop]
  congr 1
  omega

theorem takeLast_ne_nil (n : Nat) (hn : 0 < n) (l : List α) (h : l ≠ []) :
    takeLast n l ≠ [] := by
  unfold takeLast
  rw [Ne, List.drop_eq_nil_iff]
  have : 0 < l.length := List.length_pos.mpr h
  omega

theorem joinNl_cons (x : String) (l : List String) (h : l ≠ []) :
    joinNl (x :: l) = x ++ "\n" ++ joinNl l := by
  cases l with
  | nil => exact absurd rfl h
  | cons y ys => rw [joinNl, String.append_assoc]

theorem joinNl_append_singleton (l : List String) (x : String) (h : l ≠ []) :
    joinNl (l ++ [x]) = joinNl l ++ "\n" ++ x := by
  induction l with
  | nil => exact absurd rfl h
  | cons y ys ih =>
    cases ys with
    | nil => simp [joinNl]
    | cons z zs =>
      have hne : z :: zs ≠ [] := by simp
      have hne2 : (z :: zs) ++ [x] ≠ [] := by simp
      rw [List.cons_append, joinNl_cons y _ hne2, joinNl_cons y _ hne, ih hne]
      simp [String.append_assoc]

/-! ## C9 — missing `message` is rejected with 400 and no downstream work -/

/-- C9: for every request envelope whose `message` field is missing, the
handler returns the 400 client-error envelope and performs no downstream work:
no store read or write, no backend invocation (empty effect log, hence also no
routing-related store access). -/
theorem missing_message_rejected (explicit_agent : Option String) (store : List Msg)
    (orc : Oracles) :
    (lambda_handler none explicit_agent store orc).1.statusCode = 400 ∧
    (lambda_handler none explicit_agent store orc).1.error = some "Message is required" ∧
    (lambda_handler none explicit_agent store orc).2 = [] :=
  ⟨rfl, rfl, rfl⟩

/-! ## C4 — explicit hints win, except the document→knowledge cross-check -/

/-- C4: an explicit hint naming a known specialist is returned as the routing
decision, except that a `document-agent` hint is overridden to
`knowledge-agent` exactly when the message's knowledge-keyword score strictly
exceeds its document-keyword score. -/
theorem explicit_hint_arbiter (m : String) (store : List Msg) (hint : String)
    (hh : hint ∈ knownAgents) :
    (select_agent m store (some hint)).1 =
      if hint = "document-agent" ∧
         countKeywords (keywordsOf "document-agent") (pyToLower m) <
         countKeywords (keywordsOf "knowledge-agent") (pyToLower m)
      then "knowledge-agent" else hint := by
  fin_cases hh <;>
    (simp [select_agent, knownAgents, AGENT_RUNTIME_ARNS, keywordsOf, AGENT_KEYWORDS]
     try (split <;> rfl))

/-- Witness for C4: the `document-agent` hint together with a
knowledge-flavoured message is overridden to `knowledge-agent`. -/
theorem explicit_hint_arbiter_witness :
    (select_agent "ndis compliance audit" [] (some "document-agent")).1 = "knowledge-agent" := by
  rw [explicit_hint_arbiter "ndis compliance audit" [] "document-agent" (by decide)]
  decide

/-! ## C5 — continuity resolution (corrected: `lastAgent` must be a known agent) -/

/-- Counterexample to C5 as stated: the last 4 stored messages contain an
assistant message tagged `mystery-agent` (the most recent such tag), and the
current message `"sure"` is in the acknowledgment set — yet the routing
decision is the keyword default `health-assistant`, not `lastAgent`, because
the tag is not a known agent type. -/
theorem continuity_unknown_tag_cex :
    lastAgentOf (get_conversation_history [⟨"assistant", "ok", some "mystery-agent"⟩] 4) =
      some "mystery-agent" ∧
    continuationKeywords.any
      (fun kw => strContains (pyTrim (pyToLower "sure")) kw) = true ∧
    (select_agent "sure" [⟨"assistant", "ok", some "mystery-agent"⟩] none).1 =
      "health-assistant" ∧
    (select_agent "sure" [⟨"assistant", "ok", some "mystery-agent"⟩] none).1 ≠
      "mystery-agent" := by
  refine ⟨rfl, rfl, rfl, ?_⟩
  decide

/-- C5 as amended: with no explicit hint, if the last 4 stored messages have a
most-recent assistant agent-type tag `lastAgent` **and that tag is a known
agent**, and the message contains an acknowledgment phrase or has at most 5
words, the decision is `lastAgent` regardless of keyword content; in every
other case (no tag, unknown tag, or neither continuation signal) the keyword
classifier decides. -/
theorem continuity_resolver (m : String) (store : List Msg) :
    (∀ la, lastAgentOf (get_conversation_history store 4) = some la →
       la ∈ knownAgents →
       (continuationKeywords.any (fun kw => strContains (pyTrim (pyToLower m)) kw) = true ∨
        wordCount m ≤ 5) →
       (select_agent m store none).1 = la) ∧
    (∀ la, lastAgentOf (get_conversation_history store 4) = some la →
       la ∉ knownAgents →
       (select_agent m store none).1 = classifyKeywords (pyTrim (pyToLower m))) ∧
    (lastAgentOf (get_conversation_history store 4) = none →
       (select_agent m store none).1 = classifyKeywords (pyTrim (pyToLower m))) ∧
    (continuationKeywords.all (fun kw => !strContains (pyTrim (pyToLower m)) kw) = true →
     5 < wordCount m →
       (select_agent m store none).1 = classifyKeywords (pyTrim (pyToLower m))) := by
  refine ⟨?_, ?_, ?_, ?_⟩
  · intro la hla hmem hsig
    have hc : knownAgents.contains la = true := by
      simp [List.contains, List.elem_eq_mem, hmem]
    have hsig' : (continuationKeywords.any (fun kw => strContains (pyTrim (pyToLower m)) kw) ||
        decide (wordCount m ≤ 5)) = true := by
      rcases hsig with hs | hs
      · simp [hs]
      · simp [hs]
    simp [select_agent, selectAgentHistory, hla, hc, hsig', hmem]
  · intro la hla hmem
    have hc : knownAgents.contains la = false := by
      simp [List.contains, List.elem_eq_mem, hmem]
    simp only [select_agent, selectAgentHistory, hla]
    rw [hc]
    simp
  · intro hla
    simp [select_agent, selectAgentHistory, hla]
  · intro hall hlong
    simp only [select_agent, selectAgentHistory]
    have hcont : continuationKeywords.any
        (fun kw => strContains (pyTrim (pyToLower m)) kw) = false := by
      rw [List.any_eq_false]
      intro kw hkw
      have := (List.all_eq_true.mp hall) kw hkw
      simpa using this
    have hshort : (wordCount m ≤ 5) = False := by
      simp; omega
    cases hla : lastAgentOf (get_conversation_history store 4) <;>
      simp [hcont, hshort]

/-- Witness for C5 (amended): a prior `community-agent` turn plus the
acknowledgment "sure" keeps the session on `community-agent`. -/
theorem continuity_resolver_witness :
    (select_agent "sure" [⟨"assistant", "I found an article", some "community-agent"⟩] none).1 =
      "community-agent" := by
  exact (continuity_resolver "sure"
    [⟨"assistant", "I found an article", some "community-agent"⟩]).1
    "community-agent" rfl (by decide) (Or.inl rfl)

/-! ## C6 — keyword classifier: max score, first-in-order tie-break, default -/

set_option maxHeartbeats 3200000 in
/-- Closed form of the Python `max(scores.keys(), key=...)` selection followed
by the zero-score default, for a five-entry score table: the result is the
first entry attaining the maximal score, except that an all-zero table yields
`health-assistant`. -/
theorem firstMax_five_chain (a1 a2 a3 a4 a5 : String) (n1 n2 n3 n4 n5 : Nat) :
    (match firstMax [(a1, n1), (a2, n2), (a3, n3), (a4, n4), (a5, n5)] with
     | some best => if best.2 > 0 then best.1 else "health-assistant"
     | none => "health-assistant") =
    if n1 = 0 ∧ n2 = 0 ∧ n3 = 0 ∧ n4 = 0 ∧ n5 = 0 then "health-assistant"
    else if n2 ≤ n1 ∧ n3 ≤ n1 ∧ n4 ≤ n1 ∧ n5 ≤ n1 then a1
    else if n3 ≤ n2 ∧ n4 ≤ n2 ∧ n5 ≤ n2 then a2
    else if n4 ≤ n3 ∧ n5 ≤ n3 then a3
    else if n5 ≤ n4 then a4
    else a5 := by
  simp only [firstMax, List.foldl]
  by_cases h1 : n2 > n1
  · rw [if_pos h1]
    dsimp only
    by_cases h2 : n3 > n2
    · rw [if_pos h2]
      dsimp only
      by_cases h3 : n4 > n3
      · rw [if_pos h3]
        dsimp only
        by_cases h4 : n5 > n4
        · rw [if_pos h4]
          dsimp only
          split_ifs <;> (first | rfl | omega)
        · rw [if_neg h4]
          dsimp only
          split_ifs <;> (first | rfl | omega)
      · rw [if_neg h3]
        dsimp only
        by_cases h4 : n5 > n3
        · rw [if_pos h4]
          dsimp only
          split_ifs <;> (first | rfl | omega)
        · rw [if_neg h4]
          dsimp only
          split_ifs <;> (first | rfl | omega)
    · rw [if_neg h2]
      dsimp only
      by_cases h3 : n4 > n2
      · rw [if_pos h3]
        dsimp only
        by_cases h4 : n5 > n4
        · rw [if_pos h4]
          dsimp only
          split_ifs <;> (first | rfl | omega)
        · rw [if_neg h4]
          dsimp only
          split_ifs <;> (first | rfl | omega)
      · rw [if_neg h3]
        dsimp only
        by_cases h4 : n5 > n2
        · rw [if_pos h4]
          dsimp only
          split_ifs <;> (first | rfl | omega)
        · rw [if_neg h4]
          dsimp only
          split_ifs <;> (first | rfl | omega)
  · rw [if_neg h1]
    dsimp only
    by_cases h2 : n3 > n1
    · rw [if_pos h2]
      dsimp only
      by_cases h3 : n4 > n3
      · rw [if_pos h3]
        dsimp only
        by_cases h4 : n5 > n4
        · rw [if_pos h4]
          dsimp only
          split_ifs <;> (first | rfl | omega)
        · rw [if_neg h4]
          dsimp only
          split_ifs <;> (first | rfl | omega)
      · rw [if_neg h3]
        dsimp only
        by_cases h4 : n5 > n3
        · rw [if_pos h4]
          dsimp only
          split_ifs <;> (first | rfl | omega)
        · rw [if_neg h4]
          dsimp only
          split_ifs <;> (first | rfl | omega)
    · rw [if_neg h2]
      dsimp only
      by_cases h3 : n4 > n1
      · rw [if_pos h3]
        dsimp only
        by_cases h4 : n5 > n4
        · rw [if_pos h4]
          dsimp only
          split_ifs <;> (first | rfl | omega)
        · rw [if_neg h4]
          dsimp only
          split_ifs <;> (first | rfl | omega)
      · rw [if_neg h3]
        dsimp only
        by_cases h4 : n5 > n1
        · rw [if_pos h4]
          dsimp only
          split_ifs <;> (first | rfl | omega)
        · rw [if_neg h4]
          dsimp only
          split_ifs <;> (first | rfl | omega)

/-- C6: the keyword classifier picks the agent with the maximal count of
keywords occurring (case-insensitively) as substrings of the message; ties go
to the first agent in the fixed enumeration order health-assistant,
appointment-agent, community-agent, document-agent, knowledge-agent; an
all-zero score table yields `health-assistant`. -/
theorem classifier_spec (s : String) :
    classifyKeywords s =
      (let n1 := countKeywords (keywordsOf "health-assistant") s
       let n2 := countKeywords (keywordsOf "appointment-agent") s
       let n3 := countKeywords (keywordsOf "community-agent") s
       let n4 := countKeywords (keywordsOf "document-agent") s
       let n5 := countKeywords (keywordsOf "knowledge-agent") s
       if n1 = 0 ∧ n2 = 0 ∧ n3 = 0 ∧ n4 = 0 ∧ n5 = 0 then "health-assistant"
       else if n2 ≤ n1 ∧ n3 ≤ n1 ∧ n4 ≤ n1 ∧ n5 ≤ n1 then "health-assistant"
       else if n3 ≤ n2 ∧ n4 ≤ n2 ∧ n5 ≤ n2 then "appointment-agent"
       else if n4 ≤ n3 ∧ n5 ≤ n3 then "community-agent"
       else if n5 ≤ n4 then "document-agent"
       else "knowledge-agent") := by
  have hmap : AGENT_KEYWORDS.map (fun p => (p.1, countKeywords p.2 s)) =
      [("health-assistant", countKeywords (keywordsOf "health-assistant") s),
       ("appointment-agent", countKeywords (keywordsOf "appointment-agent") s),
       ("community-agent", countKeywords (keywordsOf "community-agent") s),
       ("document-agent", countKeywords (keywordsOf "document-agent") s),
       ("knowledge-agent", countKeywords (keywordsOf "knowledge-agent") s)] := rfl
  show (match firstMax (AGENT_KEYWORDS.map (fun p => (p.1, countKeywords p.2 s))) with
        | some best => if best.2 > 0 then best.1 else "health-assistant"
        | none => "health-assistant") = _
  rw [hmap]
  exact firstMax_five_chain "health-assistant" "appointment-agent" "community-agent"
    "document-agent" "knowledge-agent" _ _ _ _ _

/-! ## C8 — conversation context builder -/

/-- C8: with no stored history the context is the current message verbatim;
otherwise it is a labelled transcript of exactly the last 6 stored messages
(the fetch of the 10 most-recent messages never contributes more), each line
being `User:`/`Assistant:` by role with the body truncated to 200 characters
plus an ellipsis exactly when truncation occurred, followed by the current
message. -/
theorem context_builder_spec (store : List Msg) (m : String) :
    (store = [] → build_conversation_context store m = m) ∧
    (store ≠ [] →
      build_conversation_context store m =
        "Previous conversation:\n" ++
        joinNl ((takeLast 6 store).map transcriptLine) ++
        "\n\nCurrent message:\nUser: " ++ m) ∧
    (∀ msg : Msg, msg.content.length ≤ 200 →
        transcriptLine msg =
          (if msg.role == "user" then "User" else "Assistant") ++ ": " ++ msg.content) ∧
    (∀ msg : Msg, 200 < msg.content.length →
        transcriptLine msg =
          (if msg.role == "user" then "User" else "Assistant") ++ ": " ++
          pyTake msg.content 200 ++ "...") := by
  refine ⟨?_, ?_, ?_, ?_⟩
  · intro h
    simp [build_conversation_context, get_conversation_history, h, takeLast]
  · intro h
    have h10 : takeLast 10 store ≠ [] := takeLast_ne_nil 10 (by omega) store h
    have h6 : takeLast 6 store ≠ [] := takeLast_ne_nil 6 (by omega) store h
    have hmap : (takeLast 6 store).map transcriptLine ≠ [] := by
      simpa [List.map_eq_nil_iff] using h6
    have hemp : (takeLast 10 store).isEmpty = false := by
      simp [List.isEmpty_eq_false, h10]
    unfold build_conversation_context get_conversation_history
    dsimp only
    rw [hemp]
    simp only [Bool.false_eq_true, if_false]
    rw [takeLast_takeLast 6 10 (by omega) store]
    have hne2 : (takeLast 6 store).map transcriptLine ++ ["\nCurrent message:\nUser: " ++ m] ≠ [] := by
      simp
    rw [List.singleton_append, List.cons_append, joinNl_cons _ _ hne2,
        joinNl_append_singleton _ _ hmap]
    rw [show ("Previous conversation:\n" : String) = "Previous conversation:" ++ "\n" from rfl,
        show ("\n\nCurrent message:\nUser: " : String) = "\n" ++ "\nCurrent message:\nUser: " from rfl]
    simp only [String.append_assoc]
  · intro msg hlen
    unfold transcriptLine
    rw [if_neg (show ¬msg.content.length > 200 by omega)]
  · intro msg hlen
    unfold transcriptLine
    rw [if_pos (show msg.content.length > 200 by omega)]
    simp [String.append_assoc]

/-- Witness for C8: one short stored user message renders as a one-line
transcript followed by the current message. -/
theorem context_builder_spec_witness :
    build_conversation_context [⟨"user", "hi", none⟩] "hello" =
      "Previous conversation:\nUser: hi\n\nCurrent message:\nUser: hello" := by
  rw [(context_builder_spec [⟨"user", "hi", none⟩] "hello").2.1 (List.cons_ne_nil _ _)]
  rfl

/-! ## C1 — turn persistence on the specialist path (corrected) -/

/-- Sample Nova response body with the nested
`output.message.content[0].text` shape. -/
def novaBodyWith (t : String) : JVal :=
  .obj [("output", .obj [("message", .obj [("content", .arr [.obj [("text", .str t)]])])])]

/-- Counterexample to C1 as stated: with AgentCore available, the primary path
produces a response text for a specialist request, yet nothing is written to
the conversation store — the turn is only persisted when the foundation-model
fallback runs. -/
theorem primary_path_no_persist_cex :
    (invoke_agent true "health-assistant" "I have a headache"
       (some (novaBodyWith "Rest and hydrate.")) none (.error ())).1 =
      .str "Rest and hydrate." ∧
    savesOf (invoke_agent true "health-assistant" "I have a headache"
       (some (novaBodyWith "Rest and hydrate.")) none (.error ())).2 = [] :=
  ⟨rfl, rfl⟩

/-- C1 amended: on the specialist path the turn (a user message and an
assistant message tagged with the selected agent) is persisted exactly when
`invoke_foundation_model` produced the text and its model call and parsing
succeeded; a successful primary (AgentCore) invocation returns its text with
no store write, and a failed foundation-model call writes nothing. -/
theorem turn_persistence (acAvail : Bool) (agent m : String) (nd nf : Option JVal)
    (ac : Except Unit String) :
    (∀ t, acAvail = true → knownAgents.contains agent = true →
       invoke_agentcore agent nd ac = .ok t →
       (invoke_agent acAvail agent m nd nf ac).1 = t ∧
       savesOf (invoke_agent acAvail agent m nd nf ac).2 = []) ∧
    (∀ rb ai,
       (acAvail = false ∨ knownAgents.contains agent = false ∨
        invoke_agentcore agent nd ac = .error ()) →
       nf = some rb → novaExtractFm rb = .ok ai →
       (invoke_agent acAvail agent m nd nf ac).1 = ai ∧
       savesOf (invoke_agent acAvail agent m nd nf ac).2 =
         [.save "user" (.str m) none, .save "assistant" ai (some agent)]) ∧
    (∀ rb,
       (acAvail = false ∨ knownAgents.contains agent = false ∨
        invoke_agentcore agent nd ac = .error ()) →
       nf = some rb → novaExtractFm rb = .error () →
       (invoke_agent acAvail agent m nd nf ac).1 = .str apologyText ∧
       savesOf (invoke_agent acAvail agent m nd nf ac).2 = []) ∧
    ((acAvail = false ∨ knownAgents.contains agent = false ∨
        invoke_agentcore agent nd ac = .error ()) →
       nf = none →
       (invoke_agent acAvail agent m nd nf ac).1 = .str apologyText ∧
       savesOf (invoke_agent acAvail agent m nd nf ac).2 = []) := by
  refine ⟨?_, ?_, ?_, ?_⟩
  · intro t ha hk hac
    have hk' : agent ∈ knownAgents := by simpa using hk
    simp [invoke_agent, ha, hk', hac, savesOf]
  · intro rb ai hpath hnf hex
    have hfm : invoke_foundation_model agent m nf =
        (ai, [.history_read 10, .history_read 10, .fm_invoke,
              .save "user" (.str m) none, .save "assistant" ai (some agent)]) := by
      simp [invoke_foundation_model, hnf, hex]
    rcases hpath with ha | hk | hac
    · simp [invoke_agent, ha, hfm, savesOf]
    · have hk' : agent ∉ knownAgents := by simpa using hk
      simp [invoke_agent, hk', hfm, savesOf]
    · simp [invoke_agent, hac, hfm, savesOf]
  · intro rb hpath hnf hex
    have hfm : invoke_foundation_model agent m nf =
        (.str apologyText, [.history_read 10, .history_read 10, .fm_invoke]) := by
      simp [invoke_foundation_model, hnf, hex]
    rcases hpath with ha | hk | hac
    · simp [invoke_agent, ha, hfm, savesOf]
    · have hk' : agent ∉ knownAgents := by simpa using hk
      simp [invoke_agent, hk', hfm, savesOf]
    · simp [invoke_agent, hac, hfm, savesOf]
  · intro hpath hnf
    have hfm : invoke_foundation_model agent m nf =
        (.str apologyText, [.history_read 10, .history_read 10, .fm_invoke]) := by
      simp [invoke_foundation_model, hnf]
    rcases hpath with ha | hk | hac
    · simp [invoke_agent, ha, hfm, savesOf]
    · have hk' : agent ∉ knownAgents := by simpa using hk
      simp [invoke_agent, hk', hfm, savesOf]
    · simp [invoke_agent, hac, hfm, savesOf]

/-- Witness for C1 (amended): with AgentCore unavailable and a well-formed
Nova body, exactly the user/assistant pair is persisted. -/
theorem turn_persistence_witness :
    (invoke_agent false "community-agent" "any new studies?"
       none (some (novaBodyWith "Here is a study.")) (.error ())).1 =
      .str "Here is a study." ∧
    savesOf (invoke_agent false "community-agent" "any new studies?"
       none (some (novaBodyWith "Here is a study.")) (.error ())).2 =
      [.save "user" (.str "any new studies?") none,
       .save "assistant" (.str "Here is a study.") (some "community-agent")] :=
  (turn_persistence false "community-agent" "any new studies?" none
      (some (novaBodyWith "Here is a study.")) (.error ())).2.1
    (novaBodyWith "Here is a study.") (.str "Here is a study.")
    (Or.inl rfl) rfl rfl

/-! ## C2 — dispatcher fallback and the response `source` tag (corrected) -/

/-- A key absent from a field list is absent from any filtered sublist. -/
theorem getKey_filter_none (fs : List (String × JVal)) (q : String × JVal → Bool)
    (k : String) (h : getKey fs k = none) : getKey (fs.filter q) k = none := by
  induction fs with
  | nil => rfl
  | cons p t ih =>
    have hp : (p.1 == k) = false := by
      by_contra hc
      rw [Bool.not_eq_false] at hc
      simp [getKey, List.find?, hc] at h
    have ht : getKey t k = none := by
      simpa [getKey, List.find?, hp] using h
    cases hq : q p <;> simp [List.filter_cons, hq, getKey, List.find?, hp] <;>
      simpa [getKey] using ih ht

/-- Looking a key up past a prefix that lacks it. -/
theorem getKey_append_of_none (fs1 fs2 : List (String × JVal)) (k : String)
    (h : getKey fs1 k = none) : getKey (fs1 ++ fs2) k = getKey fs2 k := by
  induction fs1 with
  | nil => rfl
  | cons p t ih =>
    have hp : (p.1 == k) = false := by
      by_contra hc
      rw [Bool.not_eq_false] at hc
      simp [getKey, List.find?, hc] at h
    have ht : getKey t k = none := by
      simpa [getKey, List.find?, hp] using h
    simpa [getKey, List.find?, hp] using ih ht

/-- The refinement merge introduces no key absent from both bodies. -/
theorem getKey_mergeBody_none (fs2 : List (String × JVal)) (k : String) :
    ∀ fs1, getKey fs1 k = none → getKey fs2 k = none →
    getKey (mergeBody fs1 fs2) k = none := by
  induction fs2 with
  | nil => exact fun fs1 h1 _ => h1
  | cons p t ih =>
    intro fs1 h1 h2
    have hp : (p.1 == k) = false := by
      by_contra hc
      rw [Bool.not_eq_false] at hc
      simp [getKey, List.find?, hc] at h2
    have ht : getKey t k = none := by
      simpa [getKey, List.find?, hp] using h2
    have hnext : getKey (if fs1.any (fun q => q.1 == p.1) then fs1 else fs1 ++ [p]) k =
        none := by
      split
      · exact h1
      · rw [getKey_append_of_none fs1 [p] k h1]
        simp [getKey, List.find?, hp]
    exact ih _ hnext ht

/-- The document path always makes one or two backend calls. -/
theorem doc_lambda_call_bounds (m : String) (c1 c2 : Except Unit JVal) :
    docCalls (invoke_document_agent_lambda m c1 c2).2 ≠ [] ∧
    (docCalls (invoke_document_agent_lambda m c1 c2).2).length ≤ 2 := by
  unfold invoke_document_agent_lambda
  rcases c1 with u | result
  · simp [docCalls]
  · dsimp only
    repeat' split
    all_goals simp [docCalls]

/-- Every document-path envelope is either the fixed fallback envelope or a
success envelope over some final body `fs`; and any key absent from both
backend bodies is absent from that final body (so the spread cannot override
the router's value for it). -/
theorem doc_lambda_envelope_shape (m : String) (c1 c2 : Except Unit JVal) :
    (invoke_document_agent_lambda m c1 c2).1 = docFallbackEnvelope ∨
    ∃ resp fs, (invoke_document_agent_lambda m c1 c2).1 = docEnvelope resp fs ∧
      ∀ k, bodyLacksKey c1 k = true → bodyLacksKey c2 k = true →
        getKey fs k = none := by
  unfold invoke_document_agent_lambda
  rcases c1 with u | result
  · exact Or.inl rfl
  · dsimp only
    cases hb : bodyOf result
    case str s => simp [hb]
    case num n => simp [hb]
    case bool b => simp [hb]
    case null => simp [hb]
    case arr xs => simp [hb]
    case obj fs1 =>
      have hfs1 : ∀ k, bodyLacksKey (Except.ok result) k = true → getKey fs1 k = none := by
        intro k hk
        simpa [bodyLacksKey, hb, Option.isNone_iff_eq_none] using hk
      simp only [hb]
      split
      · exact Or.inl rfl
      · split
        · -- refinement round
          rcases c2 with u2 | result2
          · exact Or.inr ⟨_, fs1, rfl, fun k hk1 _ => hfs1 k hk1⟩
          · cases hb2 : bodyOf result2
            case obj fs2 =>
              have hfs2 : ∀ k, bodyLacksKey (Except.ok result2) k = true →
                  getKey fs2 k = none := by
                intro k hk
                simpa [bodyLacksKey, hb2, Option.isNone_iff_eq_none] using hk
              simp only [hb2]
              split
              · exact Or.inr ⟨_, mergeBody fs1 fs2, rfl,
                  fun k hk1 hk2 => getKey_mergeBody_none fs2 k fs1 (hfs1 k hk1) (hfs2 k hk2)⟩
              · exact Or.inr ⟨_, fs1, rfl, fun k hk1 _ => hfs1 k hk1⟩
            case str s => simp [hb2]; exact Or.inr ⟨_, fs1, rfl, fun k hk1 _ => hfs1 k hk1⟩
            case num n => simp [hb2]; exact Or.inr ⟨_, fs1, rfl, fun k hk1 _ => hfs1 k hk1⟩
            case bool b => simp [hb2]; exact Or.inr ⟨_, fs1, rfl, fun k hk1 _ => hfs1 k hk1⟩
            case null => simp [hb2]; exact Or.inr ⟨_, fs1, rfl, fun k hk1 _ => hfs1 k hk1⟩
            case arr xs => simp [hb2]; exact Or.inr ⟨_, fs1, rfl, fun k hk1 _ => hfs1 k hk1⟩
        · exact Or.inr ⟨_, fs1, rfl, fun k hk1 _ => hfs1 k hk1⟩

/-- With no `agent` key in either backend body, the document envelope's agent
is the router's fixed `document-agent`. -/
theorem doc_lambda_agent_fixed (m : String) (c1 c2 : Except Unit JVal)
    (ha1 : bodyLacksKey c1 "agent" = true) (ha2 : bodyLacksKey c2 "agent" = true) :
    (invoke_document_agent_lambda m c1 c2).1.agent = some (.str "document-agent") := by
  rcases doc_lambda_envelope_shape m c1 c2 with h | ⟨resp, fs, h, hkeys⟩
  · rw [h]; rfl
  · rw [h]
    unfold docEnvelope
    dsimp only
    rw [getKey_filter_none fs _ "agent" (hkeys "agent" ha1 ha2)]
    rfl

/-- With no `source` key in either backend body, the document envelope's
source is `document-agent-lambda` or `fallback`. -/
theorem doc_lambda_source_fixed (m : String) (c1 c2 : Except Unit JVal)
    (hs1 : bodyLacksKey c1 "source" = true) (hs2 : bodyLacksKey c2 "source" = true) :
    (invoke_document_agent_lambda m c1 c2).1.source = some (.str "document-agent-lambda") ∨
    (invoke_document_agent_lambda m c1 c2).1.source = some (.str "fallback") := by
  rcases doc_lambda_envelope_shape m c1 c2 with h | ⟨resp, fs, h, hkeys⟩
  · rw [h]; exact Or.inr rfl
  · rw [h]
    unfold docEnvelope
    dsimp only
    rw [getKey_filter_none fs _ "source" (hkeys "source" hs1 hs2)]
    exact Or.inl rfl

/-- Every knowledge-path envelope is the fixed fallback envelope or a success
envelope over the backend body, whose keys come from that body. -/
theorem knowledge_lambda_envelope_shape (m : String) (c : Except Unit JVal) :
    (invoke_knowledge_agent_lambda m c).1 = knowledgeFallbackEnvelope ∨
    ∃ resp fs, (invoke_knowledge_agent_lambda m c).1 = knowledgeEnvelope resp fs ∧
      ∀ k, bodyLacksKey c k = true → getKey fs k = none := by
  unfold invoke_knowledge_agent_lambda
  rcases c with u | result
  · exact Or.inl rfl
  · cases hb : bodyOf result
    case str s => simp [hb]
    case num n => simp [hb]
    case bool b => simp [hb]
    case null => simp [hb]
    case arr xs => simp [hb]
    case obj fs =>
      simp only [hb]
      exact Or.inr ⟨_, fs, rfl, fun k hk => by
        simpa [bodyLacksKey, hb, Option.isNone_iff_eq_none] using hk⟩

/-- With no `source` key in the backend body, the knowledge envelope's source
is `knowledge-agent-lambda` or `fallback`. -/
theorem knowledge_lambda_source_fixed (m : String) (c : Except Unit JVal)
    (hs : bodyLacksKey c "source" = true) :
    (invoke_knowledge_agent_lambda m c).1.source = some (.str "knowledge-agent-lambda") ∨
    (invoke_knowledge_agent_lambda m c).1.source = some (.str "fallback") := by
  rcases knowledge_lambda_envelope_shape m c with h | ⟨resp, fs, h, hkeys⟩
  · rw [h]; exact Or.inr rfl
  · rw [h]
    unfold knowledgeEnvelope
    dsimp only
    rw [getKey_filter_none fs _ "source" (hkeys "source" hs)]
    exact Or.inl rfl

/-- `invoke_foundation_model` always records exactly one model invocation. -/
theorem fm_invoke_once (agent m : String) (nf : Option JVal) :
    fmCount (invoke_foundation_model agent m nf).2 = 1 := by
  rcases nf with _ | rb
  · simp [invoke_foundation_model, fmCount]
  · rcases h : novaExtractFm rb with u | ai <;>
      simp [invoke_foundation_model, h, fmCount]

/-- Counterexample to C2 as stated: with AgentCore available and the primary
path's model call failing (so the user receives the fixed apology text), the
envelope's source is `bedrock-agentcore` — not `fallback-apology` — and no
separate foundation-model fallback invocation was made at all. -/
theorem fallback_apology_source_cex :
    (lambda_handler (some "i have a headache") none []
       ⟨true, .error (), none, none, .error (), .error (), .error ()⟩).1.response =
      some (.str apologyText) ∧
    (lambda_handler (some "i have a headache") none []
       ⟨true, .error (), none, none, .error (), .error (), .error ()⟩).1.source =
      some (.str "bedrock-agentcore") ∧
    (lambda_handler (some "i have a headache") none []
       ⟨true, .error (), none, none, .error (), .error (), .error ()⟩).1.source ≠
      some (.str "fallback-apology") ∧
    fmCount (lambda_handler (some "i have a headache") none []
       ⟨true, .error (), none, none, .error (), .error (), .error ()⟩).2 = 0 := by
  refine ⟨rfl, rfl, ?_, rfl⟩
  rw [show (lambda_handler (some "i have a headache") none []
       ⟨true, .error (), none, none, .error (), .error (), .error ()⟩).1.source =
      some (.str "bedrock-agentcore") from rfl]
  simp

/-- C2 amended: when `invoke_agentcore` raises, the dispatcher invokes the
foundation-model fallback exactly once and returns its result, and when that
fallback's model call also fails the returned text is the fixed apology; but
the envelope's `source` is derived from `AGENTCORE_AVAILABLE` alone
(`bedrock-agentcore` / `amazon-nova-pro`) on the specialist path and is one of
the fixed dedicated-backend tags otherwise, so no envelope carries source
`fallback-apology` — **unless** a dedicated-backend body itself carries a
`source` field, which the trailing dict spread (lines 316 and 399) lets
override the router's value, as the last conjunct exhibits. -/
theorem dispatcher_fallback_contract :
    (∀ (agent m : String) (nd nf : Option JVal) (ac : Except Unit String),
       invoke_agentcore agent nd ac = .error () →
       invoke_agent true agent m nd nf ac = invoke_foundation_model agent m nf ∧
       fmCount (invoke_agent true agent m nd nf ac).2 = 1) ∧
    (∀ (agent m : String) (nd nf : Option JVal) (ac : Except Unit String),
       invoke_agentcore agent nd ac = .error () → nf = none →
       (invoke_agent true agent m nd nf ac).1 = .str apologyText) ∧
    (∀ (message explicit : Option String) (store : List Msg) (orc : Oracles),
       bodyLacksKey orc.docCall1 "source" = true →
       bodyLacksKey orc.docCall2 "source" = true →
       bodyLacksKey orc.knowledgeCall "source" = true →
       (lambda_handler message explicit store orc).1.source ≠
         some (.str "fallback-apology")) ∧
    ((invoke_knowledge_agent_lambda "hi"
        (.ok (.obj [("body", .obj [("response", .str "r"),
                                   ("source", .str "fallback-apology")])]))).1.source =
      some (.str "fallback-apology")) := by
  have hbase : ∀ (agent m : String) (nd nf : Option JVal) (ac : Except Unit String),
      invoke_agentcore agent nd ac = .error () →
      invoke_agent true agent m nd nf ac = invoke_foundation_model agent m nf := by
    intro agent m nd nf ac hac
    unfold invoke_agent
    rw [hac]
    split <;> rfl
  refine ⟨?_, ?_, ?_, rfl⟩
  · intro agent m nd nf ac hac
    refine ⟨hbase agent m nd nf ac hac, ?_⟩
    rw [hbase agent m nd nf ac hac]
    exact fm_invoke_once agent m nf
  · intro agent m nd nf ac hac hnf
    rw [hbase agent m nd nf ac hac, hnf]
    rfl
  · intro message explicit store orc h1 h2 h3
    rcases message with _ | m
    · simp [lambda_handler, badRequestEnvelope]
    · unfold lambda_handler
      dsimp only
      split
      · simp [badRequestEnvelope]
      · split
        · dsimp only
          rcases doc_lambda_source_fixed m orc.docCall1 orc.docCall2 h1 h2 with hs | hs <;>
            rw [hs] <;> simp
        · split
          · dsimp only
            rcases knowledge_lambda_source_fixed m orc.knowledgeCall h3 with hs | hs <;>
              rw [hs] <;> simp
          · dsimp only
            split <;> simp

/-- Witness for C2 (amended): a non-ECR runtime with an unavailable AgentCore
interaction makes the dispatcher fall back exactly once, with the fallback
model also failing the apology text is returned, and a handler run whose
backends all raise never reports source `fallback-apology`. -/
theorem dispatcher_fallback_contract_witness :
    (invoke_agent true "document-agent" "hi" none none (.error ()) =
      invoke_foundation_model "document-agent" "hi" none) ∧
    fmCount (invoke_agent true "document-agent" "hi" none none (.error ())).2 = 1 ∧
    (invoke_agent true "document-agent" "hi" none none (.error ())).1 = .str apologyText ∧
    (lambda_handler (some "hello") none []
       ⟨false, .error (), none, none, .error (), .error (), .error ()⟩).1.source ≠
      some (.str "fallback-apology") :=
  ⟨(dispatcher_fallback_contract.1 "document-agent" "hi" none none (.error ()) rfl).1,
   (dispatcher_fallback_contract.1 "document-agent" "hi" none none (.error ()) rfl).2,
   dispatcher_fallback_contract.2.1 "document-agent" "hi" none none (.error ()) rfl rfl,
   dispatcher_fallback_contract.2.2.1 (some "hello") none []
     ⟨false, .error (), none, none, .error (), .error (), .error ()⟩ rfl rfl rfl⟩

/-! ## C3 — response normalizer (corrected) -/

/-- A dict's Python `in` test agrees with `get` returning a value. -/
theorem any_key_eq_isSome (fs : List (String × JVal)) (k : String) :
    fs.any (fun p => p.1 == k) = (getKey fs k).isSome := by
  induction fs with
  | nil => rfl
  | cons p t ih =>
    cases h : (p.1 == k)
    · simp [getKey, List.find?, h]
      simpa [getKey] using ih
    · simp [getKey, List.find?, h]

/-- A Nova body whose `output.message.content` is an empty list. -/
def novaEmptyContentBody : JVal :=
  .obj [("output", .obj [("message", .obj [("content", .arr [])])])]

/-- Counterexample to C3 as stated: a payload matching no known shape —
`output.message.content` present but an empty list — makes the direct
normalizer fall through the conditional chain and return the **empty string**,
not the fixed clarification text. -/
theorem normalizer_mismatch_cex :
    invoke_foundation_model_direct (some novaEmptyContentBody) = .str "" ∧
    ("" : String) ≠ clarificationText :=
  ⟨rfl, by decide⟩

/-- C3 amended: the direct normalizer tries `output.message.content[0].text`
first and flat `outputText` second and returns the first match; a payload with
neither key yields the fixed clarification text; but a payload whose
`output.message.content` is a list with no elements yields the empty string,
and a parsing exception (e.g. `content[0]` without a `text` key) yields the
fixed **apology** text — a different string from the clarification — rather
than raising. -/
theorem normalizer_shapes (fs : List (String × JVal)) :
    (∀ os ms x xs xfs t,
       getKey fs "output" = some (.obj os) →
       getKey os "message" = some (.obj ms) →
       getKey ms "content" = some (.arr (x :: xs)) →
       x = .obj xfs →
       getKey xfs "text" = some t →
       invoke_foundation_model_direct (some (.obj fs)) = t) ∧
    (getKey fs "output" = none →
       ∀ v, getKey fs "outputText" = some v →
       invoke_foundation_model_direct (some (.obj fs)) = v) ∧
    (getKey fs "output" = none → getKey fs "outputText" = none →
       invoke_foundation_model_direct (some (.obj fs)) = .str clarificationText) ∧
    (∀ os ms,
       getKey fs "output" = some (.obj os) →
       getKey os "message" = some (.obj ms) →
       getKey ms "content" = some (.arr []) →
       invoke_foundation_model_direct (some (.obj fs)) = .str "") ∧
    (∀ os ms xfs xs,
       getKey fs "output" = some (.obj os) →
       getKey os "message" = some (.obj ms) →
       getKey ms "content" = some (.arr (.obj xfs :: xs)) →
       getKey xfs "text" = none →
       invoke_foundation_model_direct (some (.obj fs)) = .str apologyText) ∧
    invoke_foundation_model_direct none = .str apologyText := by
  refine ⟨?_, ?_, ?_, ?_, ?_, rfl⟩
  · intro os ms x xs xfs t h1 h2 h3 hx ht
    subst hx
    simp [invoke_foundation_model_direct, novaExtractDirect, pyIn, pyGetItem,
      Except.instMonad, Bind.bind, Except.bind, Pure.pure, Except.pure,
      any_key_eq_isSome, h1, h2, h3, ht]
  · intro h1 v hv
    simp [invoke_foundation_model_direct, novaExtractDirect, pyIn, pyGetItem,
      Except.instMonad, Bind.bind, Except.bind, Pure.pure, Except.pure,
      any_key_eq_isSome, h1, hv]
  · intro h1 h2
    simp [invoke_foundation_model_direct, novaExtractDirect, pyIn, pyGetItem,
      Except.instMonad, Bind.bind, Except.bind, Pure.pure, Except.pure,
      any_key_eq_isSome, h1, h2]
  · intro os ms h1 h2 h3
    simp [invoke_foundation_model_direct, novaExtractDirect, pyIn, pyGetItem,
      Except.instMonad, Bind.bind, Except.bind, Pure.pure, Except.pure,
      any_key_eq_isSome, h1, h2, h3]
  · intro os ms xfs xs h1 h2 h3 ht
    simp [invoke_foundation_model_direct, novaExtractDirect, pyIn, pyGetItem,
      Except.instMonad, Bind.bind, Except.bind, Pure.pure, Except.pure,
      any_key_eq_isSome, h1, h2, h3, ht]

/-- Witness for C3 (amended): the nested shape extracts its text. -/
theorem normalizer_shapes_witness :
    invoke_foundation_model_direct
      (some (.obj [("output", .obj [("message",
        .obj [("content", .arr [.obj [("text", .str "All good.")]])])])])) =
      .str "All good." :=
  (normalizer_shapes [("output", .obj [("message",
      .obj [("content", .arr [.obj [("text", .str "All good.")]])])])]).1
    [("message", .obj [("content", .arr [.obj [("text", .str "All good.")]])])]
    [("content", .arr [.obj [("text", .str "All good.")]])]
    (.obj [("text", .str "All good.")]) [] [("text", .str "All good.")]
    (.str "All good.") rfl rfl rfl rfl rfl

/-! ## C10 — document-listing messages always hit the document backend -/

theorem docCalls_append (a b : List Eff) :
    docCalls (a ++ b) = docCalls a ++ docCalls b := by
  simp [docCalls, List.filterMap_append]

theorem docCalls_history_reads (reads : List Nat) :
    docCalls (reads.map (fun n => Eff.history_read n)) = [] := by
  induction reads with
  | nil => rfl
  | cons r t ih => exact ih

/-- Counterexample to C10 as stated: a listing request is dispatched to the
document backend, but a backend body carrying an `agent` field overrides the
router's `'agent': 'document-agent'` entry through the trailing dict spread
(line 316), so the response reports a different agent. -/
theorem listing_agent_override_cex :
    (lambda_handler (some "list my documents") none []
       ⟨false, .error (), none, none,
        .ok (.obj [("body", .obj [("response", .str "Here they are"),
                                  ("agent", .str "sneaky-agent")])]),
        .error (), .error ()⟩).1.agent = some (.str "sneaky-agent") ∧
    (lambda_handler (some "list my documents") none []
       ⟨false, .error (), none, none,
        .ok (.obj [("body", .obj [("response", .str "Here they are"),
                                  ("agent", .str "sneaky-agent")])]),
        .error (), .error ()⟩).1.agent ≠ some (.str "document-agent") ∧
    docCalls (lambda_handler (some "list my documents") none []
       ⟨false, .error (), none, none,
        .ok (.obj [("body", .obj [("response", .str "Here they are"),
                                  ("agent", .str "sneaky-agent")])]),
        .error (), .error ()⟩).2 ≠ [] := by
  refine ⟨rfl, ?_, ?_⟩
  · rw [show (lambda_handler (some "list my documents") none []
       ⟨false, .error (), none, none,
        .ok (.obj [("body", .obj [("response", .str "Here they are"),
                                  ("agent", .str "sneaky-agent")])]),
        .error (), .error ()⟩).1.agent = some (.str "sneaky-agent") from rfl]
    simp
  · rw [show docCalls (lambda_handler (some "list my documents") none []
       ⟨false, .error (), none, none,
        .ok (.obj [("body", .obj [("response", .str "Here they are"),
                                  ("agent", .str "sneaky-agent")])]),
        .error (), .error ()⟩).2 = ["list my documents"] from rfl]
    simp

/-- C10 amended: every valid request whose message matches the
document-listing heuristic is dispatched to the dedicated document backend
(at least one document-Lambda invocation occurs) whatever the routing
decision was; and the response envelope reports agent `document-agent`
provided the backend bodies do not themselves carry an `agent` field (which
the trailing dict spread would otherwise pass through, overriding the
router's value). -/
theorem listing_routes_to_document_backend (m : String) (explicit : Option String)
    (store : List Msg) (orc : Oracles) (hm : m ≠ "")
    (hlist : is_document_listing_intent m = true)
    (ha1 : bodyLacksKey orc.docCall1 "agent" = true)
    (ha2 : bodyLacksKey orc.docCall2 "agent" = true) :
    (lambda_handler (some m) explicit store orc).1.agent =
      some (.str "document-agent") ∧
    docCalls (lambda_handler (some m) explicit store orc).2 ≠ [] := by
  unfold lambda_handler
  dsimp only
  rw [if_neg hm, hlist, Bool.or_true, if_pos rfl]
  dsimp only
  constructor
  · exact doc_lambda_agent_fixed m orc.docCall1 orc.docCall2 ha1 ha2
  · rw [docCalls_append, docCalls_history_reads]
    simpa using (doc_lambda_call_bounds m orc.docCall1 orc.docCall2).1

/-- Witness for C10 (amended): "what time are my uploads" classifies to
`appointment-agent`, yet the handler answers as `document-agent`. -/
theorem listing_routes_to_document_backend_witness :
    (select_agent "what time are my uploads" [] none).1 = "appointment-agent" ∧
    (lambda_handler (some "what time are my uploads") none []
       ⟨false, .error (), none, none, .error (), .error (), .error ()⟩).1.agent =
      some (.str "document-agent") :=
  ⟨rfl,
   (listing_routes_to_document_backend "what time are my uploads" none []
      ⟨false, .error (), none, none, .error (), .error (), .error ()⟩
      (by decide) (by decide) rfl rfl).1⟩

/-! ## C7 — recipient sub-intent refinement on the document path -/

/-- C7: on the document path with detected sub-intent `recipient` and a first
answer `s1`, the backend is called once with the rewritten question and —
exactly when `s1` looks like an organization — once more with the person-only
instruction appended; the second answer replaces the first iff it is
non-empty, in which case the second body's extra fields are merged into the
first; and no run of the document path ever makes more than two backend
calls. -/
theorem recipient_refinement (m s1 s2 : String) (r1 r2 : JVal)
    (fs1 fs2 : List (String × JVal))
    (hqa : detect_document_qa_intent m = some "recipient")
    (hb1 : bodyOf r1 = .obj fs1)
    (hr1 : getKey fs1 "response" = some (.str s1)) (hs1 : s1 ≠ "")
    (hb2 : bodyOf r2 = .obj fs2)
    (hr2 : getKey fs2 "response" = some (.str s2)) :
    (docCalls (invoke_document_agent_lambda m (.ok r1) (.ok r2)).2 =
       if looks_like_org s1 then
         [rewrite_document_question m (some "recipient"),
          rewrite_document_question m (some "recipient") ++ "\n\n" ++ strongPreamble]
       else [rewrite_document_question m (some "recipient")]) ∧
    (looks_like_org s1 = true →
       (invoke_document_agent_lambda m (.ok r1) (.ok r2)).1.response =
         some (.str (if s2 = "" then s1 else s2)) ∧
       (s2 ≠ "" →
          (invoke_document_agent_lambda m (.ok r1) (.ok r2)).1.extra =
            (mergeBody fs1 fs2).filter (fun p => !(p.1 == "response")))) ∧
    (looks_like_org s1 = false →
       (invoke_document_agent_lambda m (.ok r1) (.ok r2)).1.response = some (.str s1)) ∧
    (∀ c1 c2, (docCalls (invoke_document_agent_lambda m c1 c2).2).length ≤ 2) := by
  have hresp : responseOrDefault fs1 docDefaultText = .str s1 := by
    simp [responseOrDefault, hr1, pyTruthy, hs1]
  have halt : responseOrDefault fs2 "" = .str s2 := by
    simp only [responseOrDefault, hr2]
    split
    · rfl
    · rename_i hfalse
      simp only [pyTruthy, decide_eq_true_eq] at hfalse
      simp [not_not.mp hfalse]
  by_cases ho : looks_like_org s1
  · refine ⟨?_, ?_, ?_, fun c1 c2 => (doc_lambda_call_bounds m c1 c2).2⟩
    · simp [invoke_document_agent_lambda, hqa, hb1, hresp, looksLikeOrgJVal, ho,
        hb2, halt, docCalls, docEnvelope]
    · intro _
      by_cases hs2 : s2 = ""
      · subst hs2
        simp [invoke_document_agent_lambda, hqa, hb1, hresp, looksLikeOrgJVal, ho,
          hb2, halt, docEnvelope, pyTruthy]
      · constructor
        · simp [invoke_document_agent_lambda, hqa, hb1, hresp, looksLikeOrgJVal, ho,
            hb2, halt, docEnvelope, pyTruthy, hs2]
        · intro _
          simp [invoke_document_agent_lambda, hqa, hb1, hresp, looksLikeOrgJVal, ho,
            hb2, halt, docEnvelope, pyTruthy, hs2]
    · intro hfalse
      rw [ho] at hfalse
      exact absurd hfalse (by decide)
  · rw [Bool.not_eq_true] at ho
    refine ⟨?_, ?_, ?_, fun c1 c2 => (doc_lambda_call_bounds m c1 c2).2⟩
    · simp [invoke_document_agent_lambda, hqa, hb1, hresp, looksLikeOrgJVal, ho,
        docCalls, docEnvelope]
    · intro htrue
      rw [ho] at htrue
      exact absurd htrue (by decide)
    · intro _
      simp [invoke_document_agent_lambda, hqa, hb1, hresp, looksLikeOrgJVal, ho,
        docEnvelope]

/-- Witness for C7: "who is this document for?" detects `recipient`; a first
answer "Acme Pty Ltd" looks like an organization and triggers exactly one
refinement, whose non-empty answer "Jane Doe" replaces it. -/
theorem recipient_refinement_witness :
    (invoke_document_agent_lambda "who is this document for?"
       (.ok (.obj [("body", .obj [("response", .str "Acme Pty Ltd")])]))
       (.ok (.obj [("body", .obj [("response", .str "Jane Doe"),
                                  ("evidence", .str "Participant: Jane Doe")])]))).1.response =
      some (.str "Jane Doe") ∧
    (docCalls (invoke_document_agent_lambda "who is this document for?"
       (.ok (.obj [("body", .obj [("response", .str "Acme Pty Ltd")])]))
       (.ok (.obj [("body", .obj [("response", .str "Jane Doe"),
                                  ("evidence", .str "Participant: Jane Doe")])]))).2).length =
      2 := by
  have h := recipient_refinement "who is this document for?" "Acme Pty Ltd" "Jane Doe"
    (.obj [("body", .obj [("response", .str "Acme Pty Ltd")])])
    (.obj [("body", .obj [("response", .str "Jane Doe"),
                          ("evidence", .str "Participant: Jane Doe")])])
    [("response", .str "Acme Pty Ltd")]
    [("response", .str "Jane Doe"), ("evidence", .str "Participant: Jane Doe")]
    (by decide) rfl rfl (by decide) rfl rfl
  constructor
  · rw [(h.2.1 rfl).1]
    rfl
  · rw [h.1]
    rfl

end AgentRouter
